import Mathlib

/-
Verification of the Apertus chat-format library (package `apertus_format`).

The repository ships a package manifest (`src/__init__.py`) re-exporting a
data model (enums, content records, `Message`, `Conversation`) and a
formatter (`ApertusFormatter`).  The manifest is embedded directly below as
concrete lists of exported names.  The `enums`, `models` and `formatter`
modules themselves are not part of the available source tree, so every
definition concerning them is modelled from the specification document and
carries a doc comment saying so.
-/

namespace Apertus

/-- Modelled from the spec (module `enums` is missing from the source tree):
`Role` is the closed set of turn authors: system, user, assistant, tool. -/
inductive Role where
  | system
  | user
  | assistant
  | tool
deriving DecidableEq, Repr

/-- Modelled from the spec (module `enums` is missing from the source tree):
`BlockType` tags the kind of a sub-unit inside an assistant turn: plain
text, a tool call, or a tool output. -/
inductive BlockType where
  | text
  | toolCall
  | toolOutput
deriving DecidableEq, Repr

/-- Modelled from the spec (module `enums` is missing from the source tree):
`ContentFormat` is the closed set of serialization styles; the spec names
plain vs tagged as the example variants. -/
inductive ContentFormat where
  | plain
  | tagged
deriving DecidableEq, Repr

/-- Modelled from the spec (module `enums` is missing from the source tree):
`SectionType` labels the serialized regions; one region kind per role. -/
inductive SectionType where
  | systemSection
  | userSection
  | assistantSection
  | toolSection
deriving DecidableEq, Repr

/-- Modelled from the spec (module `models` is missing from the source tree):
a plain text fragment. -/
structure TextPart where
  text : String
deriving DecidableEq, Repr

/-- Modelled from the spec (module `models` is missing from the source tree):
the payload of a system turn: its instruction text. -/
structure SystemContent where
  text : String
deriving DecidableEq, Repr

/-- Modelled from the spec (module `models` is missing from the source tree):
the payload of a user turn: ordered text parts. -/
structure UserContent where
  parts : List TextPart
deriving DecidableEq, Repr

/-- Modelled from the spec (module `models` is missing from the source tree):
a tool invocation request: a name plus serialized arguments. -/
structure ToolCall where
  name : String
  arguments : String
deriving DecidableEq, Repr

/-- Modelled from the spec (module `models` is missing from the source tree):
the result of a tool call: a reference to the originating call (by name)
plus the result payload. -/
structure ToolOutput where
  callName : String
  result : String
deriving DecidableEq, Repr

/-- Modelled from the spec (module `models` is missing from the source tree):
the actual payload carried by an `AssistantBlock`, one variant per kind. -/
inductive BlockPayload where
  | textP (t : TextPart)
  | callP (c : ToolCall)
  | outputP (o : ToolOutput)
deriving DecidableEq, Repr

/-- Modelled from the spec (module `models` is missing from the source tree):
one structured unit of assistant output: a declared `BlockType` tag together
with a payload.  The tag is a separate field precisely because the source
language is dynamically typed: a mismatch between tag and payload kind is
representable and is what `ValidationError` reports. -/
structure AssistantBlock where
  blockType : BlockType
  payload : BlockPayload
deriving DecidableEq, Repr

/-- Modelled from the spec (module `models` is missing from the source tree):
the full assistant-turn payload: an ordered sequence of blocks. -/
structure AssistantContent where
  blocks : List AssistantBlock
deriving DecidableEq, Repr

/-- Modelled from the spec (module `models` is missing from the source tree):
the content payload of a message: system, user or assistant content. -/
inductive MessageContent where
  | systemC (s : SystemContent)
  | userC (u : UserContent)
  | assistantC (a : AssistantContent)
deriving DecidableEq, Repr

/-- Modelled from the spec (module `models` is missing from the source tree):
one conversation turn: a declared `Role` tag together with a content
payload.  As with `AssistantBlock`, the declared role may disagree with the
payload kind; the formatter validates the pair. -/
structure Message where
  role : Role
  content : MessageContent
deriving DecidableEq, Repr

/-- Modelled from the spec (module `models` is missing from the source tree):
an ordered sequence of messages. -/
structure Conversation where
  messages : List Message
deriving DecidableEq, Repr

/-- Modelled from the spec (module `formatter` is missing from the source
tree): the error taxonomy of `format`: `ValidationError` for structural
tag/payload mismatches and dangling tool-output references,
`ConfigurationError` for unsupported option values. -/
inductive FormatError where
  | validationError (msg : String)
  | configurationError (msg : String)
deriving DecidableEq, Repr

/-- Modelled from the spec (module `formatter` is missing from the source
tree): the options argument of `format`.  The content-format selector is
kept as the raw string supplied by the (dynamically typed) caller, so that
unrecognized values are representable. -/
structure FormatOptions where
  contentFormat : String
deriving DecidableEq, Repr

/-- Modelled from the spec: the printed name of each role, used as the role
tag of a rendered section. -/
def roleName : Role → String
  | .system => "system"
  | .user => "user"
  | .assistant => "assistant"
  | .tool => "tool"

/-- Modelled from the spec: recognition of the raw content-format option
value; anything outside the closed `ContentFormat` set is unrecognized. -/
def contentFormatOfString : String → Option ContentFormat
  | "plain" => some ContentFormat.plain
  | "tagged" => some ContentFormat.tagged
  | _ => none

/-- Modelled from the spec: opening delimiter of a role-tagged section; the
exact delimiter syntax is the formatter's template choice, the tag text is
the role name. -/
def sectionOpen (cf : ContentFormat) (r : Role) : String :=
  match cf with
  | .plain => "[" ++ roleName r ++ "]\n"
  | .tagged => "<|" ++ roleName r ++ "|>\n"

/-- Modelled from the spec: closing delimiter of a role-tagged section. -/
def sectionClose (cf : ContentFormat) : String :=
  match cf with
  | .plain => "\n"
  | .tagged => "\n<|end|>\n"

/-- Modelled from the spec: the structured call marker emitted for a
tool-call block: name plus serialized arguments. -/
def callMarker (c : ToolCall) : String :=
  "<tool_call name=" ++ c.name ++ " arguments=" ++ c.arguments ++ "/>"

/-- Modelled from the spec: the structured result marker emitted for a
tool-output block, referencing the originating call. -/
def outputMarker (o : ToolOutput) : String :=
  "<tool_output call=" ++ o.callName ++ ">" ++ o.result ++ "</tool_output>"

/-- Modelled from the spec: the rendered sub-unit of a single assistant
block, per its payload kind: text blocks emit their text, tool-call blocks
their call marker, tool-output blocks their result marker. -/
def renderBlockUnit (b : AssistantBlock) : String :=
  match b.payload with
  | .textP t => t.text
  | .callP c => callMarker c
  | .outputP o => outputMarker o

/-- Prepend a rendered unit to the result of rendering the remaining units,
propagating an error unchanged. -/
def consOk (u : String) : Except FormatError (List String) → Except FormatError (List String)
  | .error e => .error e
  | .ok us => .ok (u :: us)

/-- Modelled from the spec: single-pass rendering of an assistant turn's
block sequence.  `seen` accumulates the names of tool calls emitted earlier
in the same turn; a block whose tag disagrees with its payload kind, or a
tool output referencing a call not in `seen`, raises a `ValidationError`
at that point. -/
def renderBlocks : List String → List AssistantBlock → Except FormatError (List String)
  | _, [] => .ok []
  | seen, b :: rest =>
    match b.blockType, b.payload with
    | .text, .textP t => consOk t.text (renderBlocks seen rest)
    | .toolCall, .callP c => consOk (callMarker c) (renderBlocks (c.name :: seen) rest)
    | .toolOutput, .outputP o =>
      if o.callName ∈ seen then
        consOk (outputMarker o) (renderBlocks seen rest)
      else
        .error (.validationError "ToolOutput references a ToolCall not present earlier in the assistant turn")
    | _, _ => .error (.validationError "AssistantBlock type does not match its payload kind")

/-- Map over the success value of an `Except`, propagating errors. -/
def exMap {α β : Type} (f : α → β) : Except FormatError α → Except FormatError β
  | .error e => .error e
  | .ok a => .ok (f a)

/-- Modelled from the spec: the serialized body of one message, per the
role- and content-specific rules; a message whose content payload does not
match its declared role raises a `ValidationError`. -/
def renderBody (m : Message) : Except FormatError String :=
  match m.role, m.content with
  | .system, .systemC s => .ok s.text
  | .user, .userC u => .ok (String.join (u.parts.map TextPart.text))
  | .assistant, .assistantC a => exMap String.join (renderBlocks [] a.blocks)
  | _, _ => .error (.validationError "Message content type does not match its declared Role")

/-- Modelled from the spec: one rendered role-tagged section: the section
delimiters carry the message's role tag, the body is the serialized
content. -/
def renderMessage (cf : ContentFormat) (m : Message) : Except FormatError String :=
  exMap (fun b => sectionOpen cf m.role ++ b ++ sectionClose cf) (renderBody m)

/-- Modelled from the spec: the stateless fold over the ordered message
sequence, stopping at the first mismatch. -/
def renderMessages (cf : ContentFormat) : List Message → Except FormatError (List String)
  | [] => .ok []
  | m :: rest =>
    match renderMessage cf m with
    | .error e => .error e
    | .ok s => consOk s (renderMessages cf rest)

/-- Modelled from the spec (module `formatter` is missing from the source
tree): `ApertusFormatter.format(conversation, options)`: checks the
content-format option (raising `ConfigurationError` on an unrecognized
value), then renders every message in order into a role-tagged section and
concatenates the sections. -/
def ApertusFormatter.format (conv : Conversation) (opts : FormatOptions) : Except FormatError String :=
  match contentFormatOfString opts.contentFormat with
  | none => .error (.configurationError "unrecognized ContentFormat option value")
  | some cf => exMap String.join (renderMessages cf conv.messages)

/-- Does the block's declared tag match its payload kind? -/
def blockMatches (b : AssistantBlock) : Bool :=
  match b.blockType, b.payload with
  | .text, .textP _ => true
  | .toolCall, .callP _ => true
  | .toolOutput, .outputP _ => true
  | _, _ => false

/-- Does some tool-output block in the sequence reference a call name that
no tool-call payload earlier in the sequence (or in `seen`) provides? -/
def hasDanglingAux : List String → List AssistantBlock → Bool
  | _, [] => false
  | seen, b :: rest =>
    match b.payload with
    | .textP _ => hasDanglingAux seen rest
    | .callP c => hasDanglingAux (c.name :: seen) rest
    | .outputP o => if o.callName ∈ seen then hasDanglingAux seen rest else true

/-- Does the message's declared role match its content payload kind? -/
def roleMatches (m : Message) : Bool :=
  match m.role, m.content with
  | .system, .systemC _ => true
  | .user, .userC _ => true
  | .assistant, .assistantC _ => true
  | _, _ => false

/-- Does the message carry an assistant block whose tag disagrees with its
payload kind? -/
def hasBlockMismatch (m : Message) : Bool :=
  match m.content with
  | .assistantC a => a.blocks.any (fun b => !blockMatches b)
  | _ => false

/-- Does the message carry a tool output referencing a call not present
earlier in the same turn? -/
def hasDanglingOutput (m : Message) : Bool :=
  match m.content with
  | .assistantC a => hasDanglingAux [] a.blocks
  | _ => false

/- ------------------------------------------------------------------
Embedding of the package manifest `src/__init__.py` (the one file present
in the source tree): the names it imports from each submodule, the names it
defines, the `__all__` export list in its literal order, and the version
string.
------------------------------------------------------------------ -/

/-- Names the manifest imports from the `enums` submodule, in source
order. -/
def importedFromEnums : List String :=
  ["Role", "BlockType", "ContentFormat", "SectionType"]

/-- Names the manifest imports from the `models` submodule, in source
order. -/
def importedFromModels : List String :=
  ["TextPart", "SystemContent", "UserContent", "ToolCall", "ToolOutput",
   "AssistantBlock", "AssistantContent", "Message", "Conversation"]

/-- Names the manifest imports from the `formatter` submodule. -/
def importedFromFormatterModule : List String :=
  ["ApertusFormatter"]

/-- Names the manifest itself defines (assignments in `__init__.py`). -/
def manifestDefinitions : List String :=
  ["__version__"]

/-- The value assigned to `__version__` in the manifest. -/
def manifestVersion : String := "0.1.0"

/-- The `__all__` list of the manifest, in its literal order. -/
def manifestAll : List String :=
  ["Message", "Conversation", "ApertusFormatter",
   "SystemContent", "UserContent", "AssistantContent", "TextPart",
   "AssistantBlock", "ToolCall", "ToolOutput",
   "Role", "BlockType", "ContentFormat", "SectionType",
   "__version__"]

/-- All names the manifest re-exports from submodules. -/
def reExports : List String :=
  importedFromEnums ++ importedFromModels ++ importedFromFormatterModule

/-- All names bound in the manifest's namespace: re-exports plus its own
definitions. -/
def boundNames : List String :=
  reExports ++ manifestDefinitions

/-- Example conversation from the spec: system instruction, user greeting,
assistant reply with one text block. -/
def exampleConv : Conversation :=
  ⟨[⟨Role.system, MessageContent.systemC ⟨"You are helpful"⟩⟩,
    ⟨Role.user, MessageContent.userC ⟨[⟨"Hi"⟩]⟩⟩,
    ⟨Role.assistant, MessageContent.assistantC
      ⟨[⟨BlockType.text, BlockPayload.textP ⟨"Hello!"⟩⟩]⟩⟩]⟩

/- ------------------------------------------------------------------
Helper lemmas about the Except combinators and the renderers.
------------------------------------------------------------------ -/

theorem consOk_ok_iff {u : String} {x : Except FormatError (List String)}
    {vs : List String} :
    consOk u x = .ok vs ↔ ∃ us, x = .ok us ∧ vs = u :: us := by
  cases x <;> simp [consOk, eq_comm]

theorem consOk_error_iff {u : String} {x : Except FormatError (List String)}
    {e : FormatError} :
    consOk u x = .error e ↔ x = .error e := by
  cases x <;> simp [consOk]

theorem consOk_exists_ok {u : String} {x : Except FormatError (List String)} :
    (∃ vs, consOk u x = .ok vs) ↔ ∃ us, x = .ok us := by
  cases x <;> simp [consOk]

theorem exMap_ok_iff {α β : Type} {f : α → β} {x : Except FormatError α} {b : β} :
    exMap f x = .ok b ↔ ∃ a, x = .ok a ∧ b = f a := by
  cases x <;> simp [exMap, eq_comm]

theorem exMap_error_iff {α β : Type} {f : α → β} {x : Except FormatError α}
    {e : FormatError} :
    exMap f x = .error e ↔ x = .error e := by
  cases x <;> simp [exMap]

theorem exMap_exists_ok {α β : Type} {f : α → β} {x : Except FormatError α} :
    (∃ b, exMap f x = .ok b) ↔ ∃ a, x = .ok a := by
  cases x <;> simp [exMap]

theorem renderBlocks_ok_map :
    ∀ (bs : List AssistantBlock) (seen us : List String),
      renderBlocks seen bs = .ok us → us = bs.map renderBlockUnit := by
  intro bs
  induction bs with
  | nil =>
    intro seen us h
    simp only [renderBlocks, Except.ok.injEq] at h
    simp [← h]
  | cons b rest ih =>
    intro seen us h
    obtain ⟨bt, pl⟩ := b
    cases bt <;> cases pl <;> simp only [renderBlocks] at h
    case text.textP t =>
      rw [consOk_ok_iff] at h
      obtain ⟨us', h1, h2⟩ := h
      subst h2
      simp [renderBlockUnit, ih _ _ h1]
    case toolCall.callP c =>
      rw [consOk_ok_iff] at h
      obtain ⟨us', h1, h2⟩ := h
      subst h2
      simp [renderBlockUnit, ih _ _ h1]
    case toolOutput.outputP o =>
      split at h
      · rw [consOk_ok_iff] at h
        obtain ⟨us', h1, h2⟩ := h
        subst h2
        simp [renderBlockUnit, ih _ _ h1]
      · simp at h
    all_goals simp at h

theorem renderBlocks_ok_iff :
    ∀ (bs : List AssistantBlock) (seen : List String),
      (∃ us, renderBlocks seen bs = .ok us) ↔
        (bs.all blockMatches = true ∧ hasDanglingAux seen bs = false) := by
  intro bs
  induction bs with
  | nil =>
    intro seen
    simp [renderBlocks, hasDanglingAux]
  | cons b rest ih =>
    intro seen
    obtain ⟨bt, pl⟩ := b
    cases bt <;> cases pl <;>
      simp only [renderBlocks, hasDanglingAux, List.all_cons, blockMatches]
    case text.textP t =>
      rw [consOk_exists_ok, ih]
      simp
    case toolCall.callP c =>
      rw [consOk_exists_ok, ih]
      simp
    case toolOutput.outputP o =>
      by_cases hmem : o.callName ∈ seen
      · simp only [hmem, if_pos]
        rw [consOk_exists_ok, ih]
        simp
      · simp [hmem]
    all_goals simp

theorem renderBlocks_error_validation :
    ∀ (bs : List AssistantBlock) (seen : List String) (e : FormatError),
      renderBlocks seen bs = .error e → ∃ msg, e = .validationError msg := by
  intro bs
  induction bs with
  | nil =>
    intro seen e h
    simp [renderBlocks] at h
  | cons b rest ih =>
    intro seen e h
    obtain ⟨bt, pl⟩ := b
    cases bt <;> cases pl <;> simp only [renderBlocks] at h
    case text.textP t =>
      rw [consOk_error_iff] at h
      exact ih _ _ h
    case toolCall.callP c =>
      rw [consOk_error_iff] at h
      exact ih _ _ h
    case toolOutput.outputP o =>
      split at h
      · rw [consOk_error_iff] at h
        exact ih _ _ h
      · simp only [Except.error.injEq] at h
        exact ⟨_, h.symm⟩
    all_goals
      simp only [Except.error.injEq] at h
      exact ⟨_, h.symm⟩

theorem renderBody_ok_iff {m : Message} :
    (∃ b, renderBody m = .ok b) ↔
      (roleMatches m = true ∧ hasBlockMismatch m = false ∧
        hasDanglingOutput m = false) := by
  obtain ⟨r, c⟩ := m
  cases r <;> cases c <;>
    simp only [renderBody, roleMatches, hasBlockMismatch, hasDanglingOutput] <;>
    simp
  case assistant.assistantC a =>
    rw [exMap_exists_ok, renderBlocks_ok_iff]
    simp [List.all_eq_true, List.any_eq_true]

theorem renderBody_error_validation {m : Message} {e : FormatError}
    (h : renderBody m = .error e) : ∃ msg, e = .validationError msg := by
  obtain ⟨r, c⟩ := m
  cases r <;> cases c <;> simp only [renderBody] at h
  case assistant.assistantC a =>
    rw [exMap_error_iff] at h
    exact renderBlocks_error_validation _ _ _ h
  all_goals try exact ⟨_, (Except.error.inj h).symm⟩
  all_goals simp at h

theorem renderMessage_ok_structure {cf : ContentFormat} {m : Message} {s : String}
    (h : renderMessage cf m = .ok s) :
    ∃ b, renderBody m = .ok b ∧
      s = sectionOpen cf m.role ++ b ++ sectionClose cf := by
  rw [renderMessage, exMap_ok_iff] at h
  obtain ⟨b, h1, h2⟩ := h
  exact ⟨b, h1, h2⟩

theorem renderMessage_ok_iff {cf : ContentFormat} {m : Message} :
    (∃ s, renderMessage cf m = .ok s) ↔
      (roleMatches m = true ∧ hasBlockMismatch m = false ∧
        hasDanglingOutput m = false) := by
  rw [renderMessage, exMap_exists_ok, renderBody_ok_iff]

theorem renderMessage_error_validation {cf : ContentFormat} {m : Message}
    {e : FormatError} (h : renderMessage cf m = .error e) :
    ∃ msg, e = .validationError msg := by
  rw [renderMessage, exMap_error_iff] at h
  exact renderBody_error_validation h

theorem renderMessages_ok_forall₂ :
    ∀ (msgs : List Message) (cf : ContentFormat) (ss : List String),
      renderMessages cf msgs = .ok ss →
        List.Forall₂ (fun m s => renderMessage cf m = .ok s) msgs ss := by
  intro msgs
  induction msgs with
  | nil =>
    intro cf ss h
    simp only [renderMessages, Except.ok.injEq] at h
    rw [← h]
    exact List.Forall₂.nil
  | cons m rest ih =>
    intro cf ss h
    simp only [renderMessages] at h
    cases hm : renderMessage cf m with
    | error e => rw [hm] at h; simp at h
    | ok s =>
      rw [hm] at h
      rw [consOk_ok_iff] at h
      obtain ⟨ss', h1, h2⟩ := h
      subst h2
      exact List.Forall₂.cons hm (ih _ _ h1)

theorem renderMessages_ok_iff :
    ∀ (msgs : List Message) (cf : ContentFormat),
      (∃ ss, renderMessages cf msgs = .ok ss) ↔
        ∀ m ∈ msgs, ∃ s, renderMessage cf m = .ok s := by
  intro msgs
  induction msgs with
  | nil =>
    intro cf
    simp [renderMessages]
  | cons m rest ih =>
    intro cf
    simp only [renderMessages, List.mem_cons]
    constructor
    · intro ⟨ss, hss⟩ m' hm'
      cases hm : renderMessage cf m with
      | error e => rw [hm] at hss; simp at hss
      | ok s =>
        rw [hm] at hss
        rw [consOk_ok_iff] at hss
        obtain ⟨ss', h1, _⟩ := hss
        rcases hm' with hm' | hm'
        · exact ⟨s, hm' ▸ hm⟩
        · exact (ih cf).mp ⟨ss', h1⟩ m' hm'
    · intro hall
      obtain ⟨s, hs⟩ := hall m (Or.inl rfl)
      obtain ⟨ss, hss⟩ := (ih cf).mpr (fun m' hm' => hall m' (Or.inr hm'))
      rw [hs]
      exact ⟨s :: ss, by rw [consOk_ok_iff]; exact ⟨ss, hss, rfl⟩⟩

theorem renderMessages_error_validation :
    ∀ (msgs : List Message) (cf : ContentFormat) (e : FormatError),
      renderMessages cf msgs = .error e → ∃ msg, e = .validationError msg := by
  intro msgs
  induction msgs with
  | nil =>
    intro cf e h
    simp [renderMessages] at h
  | cons m rest ih =>
    intro cf e h
    simp only [renderMessages] at h
    cases hm : renderMessage cf m with
    | error e' =>
      rw [hm] at h
      simp only [Except.error.injEq] at h
      exact h ▸ renderMessage_error_validation hm
    | ok s =>
      rw [hm] at h
      rw [consOk_error_iff] at h
      exact ih _ _ h

theorem format_eq {c : Conversation} {opts : FormatOptions} {cf : ContentFormat}
    (h : contentFormatOfString opts.contentFormat = some cf) :
    ApertusFormatter.format c opts = exMap String.join (renderMessages cf c.messages) := by
  simp [ApertusFormatter.format, h]

theorem format_none {c : Conversation} {opts : FormatOptions}
    (h : contentFormatOfString opts.contentFormat = none) :
    ApertusFormatter.format c opts =
      .error (.configurationError "unrecognized ContentFormat option value") := by
  simp [ApertusFormatter.format, h]

/- ------------------------------------------------------------------
Claim theorems.
------------------------------------------------------------------ -/

/-- Claim C1: `ApertusFormatter.format` is deterministic and
side-effect-free: two calls on structurally equal conversation and option
values yield identical output.  In this embedding the formatter is a pure
function, so equal inputs give equal results. -/
theorem format_deterministic (c₁ c₂ : Conversation) (o₁ o₂ : FormatOptions)
    (hc : c₁ = c₂) (ho : o₁ = o₂) :
    ApertusFormatter.format c₁ o₁ = ApertusFormatter.format c₂ o₂ := by
  subst hc
  subst ho
  rfl

/-- Witness for claim C1: two calls on the spec's example conversation with
equal options agree. -/
theorem format_deterministic_witness :
    ApertusFormatter.format exampleConv ⟨"tagged"⟩ =
      ApertusFormatter.format exampleConv ⟨"tagged"⟩ :=
  format_deterministic exampleConv exampleConv ⟨"tagged"⟩ ⟨"tagged"⟩ rfl rfl

/-- Claim C2: with a recognized content format, `format` fails with a
`ValidationError` exactly when some message's content type does not match
its declared role, or some assistant block's tag does not match its payload
kind, or some tool output references a tool call not present earlier in the
same assistant turn (the dangling output raises rather than being silently
dropped). -/
theorem format_validationError_iff (c : Conversation) (opts : FormatOptions)
    (cf : ContentFormat)
    (hcf : contentFormatOfString opts.contentFormat = some cf) :
    (∃ msg, ApertusFormatter.format c opts = .error (.validationError msg)) ↔
      ((∃ m ∈ c.messages, roleMatches m = false) ∨
       (∃ m ∈ c.messages, hasBlockMismatch m = true) ∨
       (∃ m ∈ c.messages, hasDanglingOutput m = true)) := by
  have key : (∃ ss, renderMessages cf c.messages = .ok ss) ↔
      ∀ m ∈ c.messages,
        (roleMatches m = true ∧ hasBlockMismatch m = false ∧
          hasDanglingOutput m = false) := by
    rw [renderMessages_ok_iff]
    constructor
    · intro hall m hm
      exact renderMessage_ok_iff.mp (hall m hm)
    · intro hall m hm
      exact renderMessage_ok_iff.mpr (hall m hm)
  constructor
  · rintro ⟨msg, hmsg⟩
    rw [format_eq hcf, exMap_error_iff] at hmsg
    by_contra hcon
    push_neg at hcon
    simp only [Bool.not_eq_false, Bool.not_eq_true] at hcon
    obtain ⟨ss, hss⟩ := key.mpr
      (fun m hm => ⟨hcon.1 m hm, hcon.2.1 m hm, hcon.2.2 m hm⟩)
    rw [hss] at hmsg
    exact absurd hmsg (by simp)
  · intro hdis
    have hnot : ¬(∃ ss, renderMessages cf c.messages = .ok ss) := by
      rw [key]
      intro hall
      rcases hdis with ⟨m, hm, h⟩ | ⟨m, hm, h⟩ | ⟨m, hm, h⟩
      · exact absurd (hall m hm).1 (by simp [h])
      · exact absurd (hall m hm).2.1 (by simp [h])
      · exact absurd (hall m hm).2.2 (by simp [h])
    cases hrm : renderMessages cf c.messages with
    | ok ss => exact absurd ⟨ss, hrm⟩ hnot
    | error e =>
      obtain ⟨msg, hmsg⟩ := renderMessages_error_validation _ _ _ hrm
      refine ⟨msg, ?_⟩
      rw [format_eq hcf, exMap_error_iff, hrm, hmsg]

/-- Conversation whose single assistant turn emits a tool output whose call
was never made: the dangling-reference error case. -/
def danglingConv : Conversation :=
  ⟨[⟨Role.assistant, MessageContent.assistantC
      ⟨[⟨BlockType.toolOutput, BlockPayload.outputP ⟨"f", "42"⟩⟩]⟩⟩]⟩

/-- Witness for claim C2: the error characterization instantiated at a
conversation with a dangling tool output. -/
theorem format_validationError_iff_witness :
    contentFormatOfString "plain" = some ContentFormat.plain ∧
    ((∃ msg, ApertusFormatter.format danglingConv ⟨"plain"⟩ =
        .error (.validationError msg)) ↔
      ((∃ m ∈ danglingConv.messages, roleMatches m = false) ∨
       (∃ m ∈ danglingConv.messages, hasBlockMismatch m = true) ∨
       (∃ m ∈ danglingConv.messages, hasDanglingOutput m = true))) :=
  ⟨by decide, format_validationError_iff danglingConv ⟨"plain"⟩
    ContentFormat.plain (by decide)⟩

/-- Claim C3: a successful `format` renders, for every message in input
order, exactly one role-tagged section containing that message's serialized
content, and the whole output is the concatenation of those sections. -/
theorem format_sections (c : Conversation) (opts : FormatOptions)
    (cf : ContentFormat) (out : String)
    (hcf : contentFormatOfString opts.contentFormat = some cf)
    (hout : ApertusFormatter.format c opts = .ok out) :
    ∃ ss, List.Forall₂
        (fun m s => ∃ b, renderBody m = .ok b ∧
          s = sectionOpen cf m.role ++ b ++ sectionClose cf)
        c.messages ss ∧
      out = String.join ss := by
  rw [format_eq hcf, exMap_ok_iff] at hout
  obtain ⟨ss, hss, hjoin⟩ := hout
  refine ⟨ss, ?_, hjoin⟩
  exact (renderMessages_ok_forall₂ _ _ _ hss).imp
    (fun m s h => renderMessage_ok_structure h)

/-- Witness for claim C3: the spec's three-message example renders the
system instruction, the user text and the assistant text in that order,
each inside its role-tagged section. -/
theorem format_sections_witness :
    contentFormatOfString "tagged" = some ContentFormat.tagged ∧
    ApertusFormatter.format exampleConv ⟨"tagged"⟩ =
      .ok "<|system|>\nYou are helpful\n<|end|>\n<|user|>\nHi\n<|end|>\n<|assistant|>\nHello!\n<|end|>\n" ∧
    (∃ ss, List.Forall₂
        (fun m s => ∃ b, renderBody m = .ok b ∧
          s = sectionOpen ContentFormat.tagged m.role ++ b ++
            sectionClose ContentFormat.tagged)
        exampleConv.messages ss ∧
      "<|system|>\nYou are helpful\n<|end|>\n<|user|>\nHi\n<|end|>\n<|assistant|>\nHello!\n<|end|>\n" =
        String.join ss) ∧
    "<|system|>\nYou are helpful\n<|end|>\n<|user|>\nHi\n<|end|>\n<|assistant|>\nHello!\n<|end|>\n" =
      "<|system|>\n" ++ "You are helpful" ++ "\n<|end|>\n<|user|>\n" ++ "Hi" ++
        "\n<|end|>\n<|assistant|>\n" ++ "Hello!" ++ "\n<|end|>\n" := by
  refine ⟨by decide, ?_, ?_, by decide⟩
  · rfl
  · exact format_sections exampleConv ⟨"tagged"⟩ ContentFormat.tagged _
      (by decide) (by rfl)

/-- Claim C4: rendering an `AssistantContent` with `n` blocks produces
exactly `n` sub-units, in input order, each rendered per its block kind
(text, call marker, or result marker). -/
theorem assistant_blocks_rendered (a : AssistantContent) (seen us : List String)
    (h : renderBlocks seen a.blocks = .ok us) :
    us.length = a.blocks.length ∧ us = a.blocks.map renderBlockUnit := by
  have hmap := renderBlocks_ok_map _ _ _ h
  exact ⟨by rw [hmap, List.length_map], hmap⟩

/-- Assistant content exercising all three block kinds: text, a tool call,
and a tool output referencing that call. -/
def exampleBlocks : AssistantContent :=
  ⟨[⟨BlockType.text, BlockPayload.textP ⟨"a"⟩⟩,
    ⟨BlockType.toolCall, BlockPayload.callP ⟨"f", "1"⟩⟩,
    ⟨BlockType.toolOutput, BlockPayload.outputP ⟨"f", "42"⟩⟩]⟩

/-- Witness for claim C4: three blocks render to exactly three units in
order: the text, the call marker, the result marker. -/
theorem assistant_blocks_rendered_witness :
    renderBlocks [] exampleBlocks.blocks =
      .ok ["a", "<tool_call name=f arguments=1/>",
        "<tool_output call=f>42</tool_output>"] ∧
    (["a", "<tool_call name=f arguments=1/>",
        "<tool_output call=f>42</tool_output>"].length =
      exampleBlocks.blocks.length ∧
     ["a", "<tool_call name=f arguments=1/>",
        "<tool_output call=f>42</tool_output>"] =
      exampleBlocks.blocks.map renderBlockUnit) :=
  ⟨by rfl, assistant_blocks_rendered exampleBlocks [] _ (by rfl)⟩

/-- Claim C5: the role tag of every rendered section equals the rendered
message's `role` field: a successful `renderMessage` output is delimited by
the section delimiters of exactly `m.role`. -/
theorem renderMessage_role_tag (cf : ContentFormat) (m : Message) (s : String)
    (h : renderMessage cf m = .ok s) :
    ∃ b, s = sectionOpen cf m.role ++ b ++ sectionClose cf := by
  obtain ⟨b, _, hb⟩ := renderMessage_ok_structure h
  exact ⟨b, hb⟩

/-- Example user message. -/
def exampleUserMsg : Message := ⟨Role.user, MessageContent.userC ⟨[⟨"Hi"⟩]⟩⟩

/-- Witness for claim C5: the rendered user message carries the user role
tag. -/
theorem renderMessage_role_tag_witness :
    renderMessage ContentFormat.plain exampleUserMsg = .ok "[user]\nHi\n" ∧
    (∃ b, "[user]\nHi\n" =
      sectionOpen ContentFormat.plain exampleUserMsg.role ++ b ++
        sectionClose ContentFormat.plain) :=
  ⟨by rfl, renderMessage_role_tag ContentFormat.plain exampleUserMsg _ (by rfl)⟩

/-- Claim C6: formatting an empty conversation with a recognized content
format succeeds with the empty (minimal) output and never raises. -/
theorem format_empty_ok (opts : FormatOptions) (cf : ContentFormat)
    (hcf : contentFormatOfString opts.contentFormat = some cf) :
    ApertusFormatter.format ⟨[]⟩ opts = .ok "" := by
  rw [format_eq hcf]
  rfl

/-- Witness for claim C6: the empty conversation under the plain format. -/
theorem format_empty_ok_witness :
    contentFormatOfString "plain" = some ContentFormat.plain ∧
    ApertusFormatter.format ⟨[]⟩ ⟨"plain"⟩ = .ok "" :=
  ⟨by decide, format_empty_ok ⟨"plain"⟩ ContentFormat.plain (by decide)⟩

/-- Claim C7: `format` is atomic: every call either reports an error and
produces no output, or returns the complete rendering — the concatenation
of one section per input message, never a truncated prefix. -/
theorem format_complete_or_error (c : Conversation) (opts : FormatOptions) :
    (∃ e, ApertusFormatter.format c opts = .error e) ∨
    (∃ cf ss, contentFormatOfString opts.contentFormat = some cf ∧
      renderMessages cf c.messages = .ok ss ∧
      ss.length = c.messages.length ∧
      ApertusFormatter.format c opts = .ok (String.join ss)) := by
  cases hcf : contentFormatOfString opts.contentFormat with
  | none => exact Or.inl ⟨_, format_none hcf⟩
  | some cf =>
    cases hrm : renderMessages cf c.messages with
    | error e =>
      refine Or.inl ⟨e, ?_⟩
      rw [format_eq hcf, exMap_error_iff]
      exact hrm
    | ok ss =>
      refine Or.inr ⟨cf, ss, rfl, hrm,
        ((renderMessages_ok_forall₂ _ _ _ hrm).length_eq).symm, ?_⟩
      rw [format_eq hcf, hrm]
      rfl

/-- Claim C8: an unrecognized content-format option value makes `format`
fail with a `ConfigurationError` (as opposed to a `ValidationError`). -/
theorem format_unrecognized_configError (c : Conversation) (opts : FormatOptions)
    (h : contentFormatOfString opts.contentFormat = none) :
    ∃ msg, ApertusFormatter.format c opts = .error (.configurationError msg) :=
  ⟨_, format_none h⟩

/-- Witness for claim C8: the option value "xml" is unrecognized. -/
theorem format_unrecognized_configError_witness :
    contentFormatOfString "xml" = none ∧
    ∃ msg, ApertusFormatter.format ⟨[]⟩ ⟨"xml"⟩ =
      .error (.configurationError msg) :=
  ⟨by decide, format_unrecognized_configError ⟨[]⟩ ⟨"xml"⟩ (by decide)⟩

/-- Claim C9: the manifest re-exports exactly one name from the formatter
module — `ApertusFormatter`, the sole serialization entry point — and its
re-exports are exactly the nine model types and the four enumerations
alongside it; every `__all__` entry other than `__version__` is one of
those re-exports and vice versa. -/
theorem manifest_sole_format_entry :
    importedFromFormatterModule = ["ApertusFormatter"] ∧
    manifestAll.filter (fun n => importedFromFormatterModule.contains n) =
      ["ApertusFormatter"] ∧
    importedFromEnums.length = 4 ∧
    importedFromModels.length = 9 ∧
    reExports =
      importedFromEnums ++ importedFromModels ++ ["ApertusFormatter"] ∧
    List.Perm manifestAll (reExports ++ ["__version__"]) := by
  refine ⟨rfl, by decide, rfl, rfl, rfl, by decide⟩

/-- Counterexample for claim C10 as stated: `__all__` lists fifteen names,
not fourteen. -/
theorem manifestAll_length_fifteen :
    manifestAll.length = 15 ∧ manifestAll.length ≠ 14 := by decide

/-- Claim C10 (amended: `__all__` lists fifteen names, not fourteen): the
manifest defines `__version__ = "0.1.0"`, includes it in `__all__`, and
every one of the fifteen names listed in `__all__` is bound by the
manifest's imports or definitions — no dangling export. -/
theorem manifest_version_and_bindings :
    manifestVersion = "0.1.0" ∧
    "__version__" ∈ manifestAll ∧
    manifestAll.length = 15 ∧
    ∀ n ∈ manifestAll, n ∈ boundNames := by decide

end Apertus
